import Mathlib

/-!
Shallow embedding of the survey-pipeline repository, with theorems checking
its natural-language specification.

Modelled components:
  * completion_codes_config.py  (completion-code policy table)
  * generate_review_plan.py     (reconciliation of local CSV vs Prolific submissions)
  * PDF_upload.py               (Latin-square randomization of model order)
  * URL_database.py             (Firestore-backed task URL service)
  * qualtrics_database.py       (SQLite-backed task service)

Python strings are Lean `String`; Python dicts are association lists looked
up with `List.lookup` (first binding wins, as a dict with unique keys);
randomness (`random.shuffle`, `random.sample`) is an oracle parameter
constrained by hypotheses in the theorems.
-/

namespace SurveyPipeline

/-! ## Python string helpers

`str.strip` and `str.upper` are modelled character-wise (the repository only
feeds them ASCII flag values such as `"TRUE"`). -/

/-- Whitespace characters stripped by Python `str.strip()`. -/
def pyIsSpace (c : Char) : Bool :=
  c == ' ' || c == '\t' || c == '\n' || c == '\r' || c == '\x0B' || c == '\x0C'

/-- Python `str.strip()`: drop leading and trailing whitespace. -/
def pyStrip (s : String) : String :=
  ⟨((s.data.dropWhile pyIsSpace).reverse.dropWhile pyIsSpace).reverse⟩

/-- Python `str.upper()` (ASCII characters). -/
def pyUpper (s : String) : String :=
  ⟨s.data.map Char.toUpper⟩

/-- Python `s.replace("_", " ")` for a single-character pattern. -/
def replaceUnderscores (s : String) : String :=
  ⟨s.data.map (fun c => if c == '_' then ' ' else c)⟩

/-! ## completion_codes_config.py -/

/-- A CSV row: a dict from column name to string value. -/
def CsvRow : Type := List (String × String)

/-- Python `csv_row.get(key, '')`. -/
def rowGet (row : CsvRow) (key : String) : String :=
  (List.lookup key row).getD ""

/-- The `COMPLETION_CODES` table from completion_codes_config.py. -/
def COMPLETION_CODES : List (String × String) :=
  [("APPROVED", "C1G9PC0D"),
   ("SCREENED_OUT", "C1NFUEQ1"),
   ("FAILED_ATTENTION", "C1M8R1Y4"),
   ("NO_CONSENT", "COISODYI")]

/-- Python `COMPLETION_CODES[name]`. -/
def codeOf (name : String) : String :=
  (List.lookup name COMPLETION_CODES).getD ""

/-- The test `csv_row.get(flag, '').strip().upper() == 'TRUE'`. -/
def flagIsTrue (row : CsvRow) (flag : String) : Bool :=
  pyUpper (pyStrip (rowGet row flag)) == "TRUE"

/-- The screening flags looped over in `determine_completion_code`. -/
def screening_flags : List String :=
  ["did_not_understand_tasks",
   "occupation_not_confirmed",
   "insufficient_work_experience"]

/-- `determine_completion_code(csv_row)`: returns `(completion_code, reason)`,
with `none` standing for Python `None` (manual review). -/
def determine_completion_code (row : CsvRow) : Option String × String :=
  if flagIsTrue row "no_consent" then
    (some (codeOf "NO_CONSENT"),
     "Participant did not provide valid consent to participate in this research study. Consent is required for all participants as per ethical research guidelines and institutional requirements.")
  else if flagIsTrue row "failed_two_plus_attention_checks" then
    (some (codeOf "FAILED_ATTENTION"),
     "Participant failed two or more attention checks, indicating insufficient attention to study requirements.")
  else
    match screening_flags.find? (fun flag => flagIsTrue row flag) with
    | some flag =>
        (some (codeOf "SCREENED_OUT"),
         "Participant was screened out due to: " ++ replaceUnderscores flag)
    | none =>
        if flagIsTrue row "screened_out" then
          (some (codeOf "SCREENED_OUT"),
           "Participant was screened out during the study process.")
        else if flagIsTrue row "incomplete_survey_other_reasons" then
          (some (codeOf "FAILED_ATTENTION"),
           "Participant did not complete the survey for other reasons indicating insufficient engagement.")
        else if flagIsTrue row "completed_survey"
             && !(pyUpper (pyStrip (rowGet row "approved")) == "FALSE") then
          (some (codeOf "APPROVED"),
           "Participant successfully completed the study and met all requirements.")
        else
          (none, "Unable to determine appropriate completion code - requires manual review.")

/-- `get_api_action_for_completion_code(completion_code)`. -/
def get_api_action_for_completion_code (completion_code : String) : String :=
  if completion_code == codeOf "APPROVED" then "SKIP"
  else if completion_code == codeOf "SCREENED_OUT" then "SCREEN_OUT"
  else if [codeOf "FAILED_ATTENTION", codeOf "NO_CONSENT"].contains completion_code then "REJECT"
  else "MANUAL_REVIEW"

/-- `get_code_name(completion_code)`: reverse lookup, `""` for a falsy code. -/
def get_code_name (completion_code : String) : String :=
  if completion_code == "" then ""
  else
    match COMPLETION_CODES.find? (fun kv => kv.2 == completion_code) with
    | some kv => kv.1
    | none => "UNKNOWN(" ++ completion_code ++ ")"

/-- `is_known_completion_code(completion_code)`. -/
def is_known_completion_code (completion_code : String) : Bool :=
  (COMPLETION_CODES.map Prod.snd).contains completion_code

/-- First character of a string, used to separate `UNKNOWN(...)` names from
the configured names. -/
def firstChar (s : String) : Option Char := s.data.head?

theorem unknown_name_not_configured (c : String) :
    "UNKNOWN(" ++ c ++ ")" ∉ COMPLETION_CODES.map Prod.fst := by
  intro hm
  simp [COMPLETION_CODES] at hm
  rcases hm with h | h | h | h
  · have h2 : some 'U' = some 'A' := congrArg firstChar h
    simp at h2
  · have h2 : some 'U' = some 'S' := congrArg firstChar h
    simp at h2
  · have h2 : some 'U' = some 'F' := congrArg firstChar h
    simp at h2
  · have h2 : some 'U' = some 'N' := congrArg firstChar h
    simp at h2

end SurveyPipeline

namespace SurveyPipeline

/-- C6: `determine_completion_code` always yields one of the four configured
codes or `None`, with the `no_consent` flag taking priority, and
`get_api_action_for_completion_code` maps APPROVED to SKIP, SCREENED_OUT to
SCREEN_OUT, FAILED_ATTENTION and NO_CONSENT to REJECT, and any other code to
MANUAL_REVIEW. -/
theorem determine_completion_code_policy (row : CsvRow) (code : String) :
    (determine_completion_code row).1 ∈
      [none, some (codeOf "APPROVED"), some (codeOf "SCREENED_OUT"),
       some (codeOf "FAILED_ATTENTION"), some (codeOf "NO_CONSENT")]
    ∧ (flagIsTrue row "no_consent" = true →
        (determine_completion_code row).1 = some (codeOf "NO_CONSENT"))
    ∧ get_api_action_for_completion_code (codeOf "APPROVED") = "SKIP"
    ∧ get_api_action_for_completion_code (codeOf "SCREENED_OUT") = "SCREEN_OUT"
    ∧ get_api_action_for_completion_code (codeOf "FAILED_ATTENTION") = "REJECT"
    ∧ get_api_action_for_completion_code (codeOf "NO_CONSENT") = "REJECT"
    ∧ (code ∉ COMPLETION_CODES.map Prod.snd →
        get_api_action_for_completion_code code = "MANUAL_REVIEW") := by
  refine ⟨?_, ?_, by decide, by decide, by decide, by decide, ?_⟩
  · unfold determine_completion_code
    repeat' split
    all_goals simp
  · intro h
    simp [determine_completion_code, h]
  · intro h
    simp [COMPLETION_CODES] at h
    obtain ⟨h1, h2, h3, h4⟩ := h
    rw [get_api_action_for_completion_code,
        show codeOf "APPROVED" = "C1G9PC0D" from rfl,
        show codeOf "SCREENED_OUT" = "C1NFUEQ1" from rfl,
        show codeOf "FAILED_ATTENTION" = "C1M8R1Y4" from rfl,
        show codeOf "NO_CONSENT" = "COISODYI" from rfl]
    simp [h1, h2, h3, h4]

theorem determine_completion_code_policy_witness :
    (determine_completion_code [("no_consent", " true ")]).1 = some (codeOf "NO_CONSENT")
    ∧ get_api_action_for_completion_code "ZZZ" = "MANUAL_REVIEW" :=
  ⟨(determine_completion_code_policy [("no_consent", " true ")] "ZZZ").2.1 (by decide),
   (determine_completion_code_policy [("no_consent", " true ")] "ZZZ").2.2.2.2.2.2 (by decide)⟩

/-- C9: the four configured completion codes are pairwise distinct, name
lookup round-trips through `get_code_name`, and `is_known_completion_code`
holds exactly when `get_code_name` returns one of the four configured
names. -/
theorem completion_code_name_roundtrip (c : String) :
    (COMPLETION_CODES.map Prod.snd).Nodup
    ∧ (∀ kv ∈ COMPLETION_CODES, get_code_name (codeOf kv.1) = kv.1)
    ∧ (is_known_completion_code c = true ↔
        get_code_name c ∈ COMPLETION_CODES.map Prod.fst) := by
  refine ⟨by decide, by decide, ?_, ?_⟩
  · intro h
    simp [is_known_completion_code, List.elem_iff, COMPLETION_CODES] at h
    rcases h with h | h | h | h <;> subst h <;> decide
  · intro hm
    by_cases hk : c ∈ COMPLETION_CODES.map Prod.snd
    · exact List.elem_iff.mpr hk
    · exfalso
      by_cases hc : c = ""
      · subst hc
        simp [get_code_name, COMPLETION_CODES] at hm
      · have hfind : COMPLETION_CODES.find? (fun kv => kv.2 == c) = none := by
          apply List.find?_eq_none.mpr
          intro kv hkv hbeq
          exact hk (List.mem_map.mpr ⟨kv, hkv, by simpa using hbeq⟩)
        have hgc : get_code_name c = "UNKNOWN(" ++ c ++ ")" := by
          simp [get_code_name, hc, hfind]
        rw [hgc] at hm
        exact unknown_name_not_configured c hm

theorem completion_code_name_roundtrip_witness :
    (COMPLETION_CODES.map Prod.snd).Nodup
    ∧ get_code_name (codeOf "APPROVED") = "APPROVED"
    ∧ (is_known_completion_code "C1G9PC0D" = true ↔
        get_code_name "C1G9PC0D" ∈ COMPLETION_CODES.map Prod.fst) :=
  ⟨(completion_code_name_roundtrip "C1G9PC0D").1,
   (completion_code_name_roundtrip "C1G9PC0D").2.1 ("APPROVED", "C1G9PC0D") (by decide),
   (completion_code_name_roundtrip "C1G9PC0D").2.2⟩

/-! ## PDF_upload.py: Latin-square randomization

`random.shuffle(latin_square_orders)` is modelled by an oracle `shuffle`
function; theorems assume the oracle returns a permutation of its input,
which is all `random.shuffle` guarantees. -/

/-- The `MODEL_NAMES` dict from PDF_upload.py. -/
def MODEL_NAMES : List (String × String) :=
  [("model1", "GPT_4o_2025"),
   ("model2", "Claude_3_Opus"),
   ("model3", "Gemini_Ultra"),
   ("model4", "GPT_4_Turbo"),
   ("model5", "Claude_3_Sonnet")]

/-- `list(MODEL_NAMES.values())`. -/
def model_names : List String := MODEL_NAMES.map Prod.snd

/-- The hard-coded `base_squares` (cyclic shifts of `(0,1,2,3,4)`). -/
def base_squares : List (List Nat) :=
  [[0, 1, 2, 3, 4],
   [1, 2, 3, 4, 0],
   [2, 3, 4, 0, 1],
   [3, 4, 0, 1, 2],
   [4, 0, 1, 2, 3]]

/-- The base square rows converted to model names
(`[model_names[i] for i in square_row]`). -/
def latin_square_orders : List (List String) :=
  base_squares.map (fun square_row => square_row.map (fun i => model_names.getD i ""))

/-- `generate_latin_square_orders(n_models, n_rows)`, with the in-place
`random.shuffle` passed as the oracle `shuffle`.  The `ValueError` branch is
an `Except.error`. -/
def generate_latin_square_orders (shuffle : List (List String) → List (List String))
    (n_models n_rows : Nat) : Except String (List (List String)) :=
  if n_models ≠ 5 then
    .error "This implementation is designed for exactly 5 models"
  else
    let shuffled := shuffle latin_square_orders
    .ok ((List.range n_rows).map (fun i => shuffled.getD (i % shuffled.length) []))

/-- The per-row cyclic indexing function used by
`generate_latin_square_orders`. -/
def cycRow (ls : List (List String)) (i : Nat) : List String :=
  ls.getD (i % ls.length) []

theorem cycRow_first_block (ls : List (List String)) (hlen : ls.length = 5) :
    (List.range 5).map (cycRow ls) = ls := by
  apply List.ext_getElem (by simp [hlen])
  intro i h1 h2
  simp only [List.getElem_map, List.getElem_range, cycRow]
  rw [hlen, Nat.mod_eq_of_lt (by simpa using h1)]
  exact List.getD_eq_getElem ls [] h2

theorem cycRow_shift (ls : List (List String)) (hlen : ls.length = 5) (i : Nat) :
    cycRow ls (5 + i) = cycRow ls i := by
  simp only [cycRow, hlen, Nat.add_mod_left]

theorem cycRow_block (ls : List (List String)) (hlen : ls.length = 5) (n : Nat) :
    (List.range (5 + n)).map (cycRow ls) = ls ++ (List.range n).map (cycRow ls) := by
  rw [List.range_add, List.map_append, List.map_map, cycRow_first_block ls hlen]
  congr 1
  apply List.map_congr_left
  intro i _
  exact cycRow_shift ls hlen i

theorem cycRow_countP (ls : List (List String)) (hlen : ls.length = 5)
    (p : List String → Bool) (q r : Nat) :
    ((List.range (5 * q + r)).map (cycRow ls)).countP p =
      q * ls.countP p + ((List.range r).map (cycRow ls)).countP p := by
  induction q with
  | zero => simp
  | succ k ih =>
      have h5 : 5 * (k + 1) + r = 5 + (5 * k + r) := by omega
      rw [h5, cycRow_block ls hlen, List.countP_append, ih]
      ring

theorem cycRow_prefix_countP_le (ls : List (List String)) (hlen : ls.length = 5)
    (p : List String → Bool) (r : Nat) (hr : r ≤ 5) :
    ((List.range r).map (cycRow ls)).countP p ≤ ls.countP p := by
  have hsplit : (List.range 5).map (cycRow ls) =
      (List.range r).map (cycRow ls) ++ ((List.range (5 - r)).map (r + ·)).map (cycRow ls) := by
    rw [← List.map_append, ← List.range_add, Nat.add_sub_cancel' hr]
  have : ((List.range 5).map (cycRow ls)).countP p =
      ((List.range r).map (cycRow ls)).countP p +
        (((List.range (5 - r)).map (r + ·)).map (cycRow ls)).countP p := by
    rw [hsplit, List.countP_append]
  rw [cycRow_first_block ls hlen] at this
  omega

theorem generate_ok_shape (shuffle : List (List String) → List (List String))
    (n_models n_rows : Nat) (orders : List (List String))
    (hok : generate_latin_square_orders shuffle n_models n_rows = .ok orders) :
    n_models = 5 ∧ orders = (List.range n_rows).map (cycRow (shuffle latin_square_orders)) := by
  by_cases h5 : n_models = 5
  · refine ⟨h5, ?_⟩
    subst h5
    unfold generate_latin_square_orders at hok
    rw [if_neg (by decide)] at hok
    injection hok with h
    exact h.symm
  · simp [generate_latin_square_orders, h5] at hok

theorem shuffled_length (shuffle : List (List String) → List (List String))
    (hperm : (shuffle latin_square_orders).Perm latin_square_orders) :
    (shuffle latin_square_orders).length = 5 := by
  rw [hperm.length_eq]; rfl

/-- C3: for `n_models = 5`, `generate_latin_square_orders` returns exactly
`n_rows` rows, each row one of the five distinct cyclic-shift orders of the
model names, the first five rows (when `n_rows ≥ 5`) being the five shifts
in some order, the whole list repeating with period 5; for `n_models ≠ 5`
it raises `ValueError`. -/
theorem generate_latin_square_orders_spec
    (shuffle : List (List String) → List (List String))
    (n_models n_rows : Nat) (orders : List (List String))
    (hperm : (shuffle latin_square_orders).Perm latin_square_orders)
    (hok : generate_latin_square_orders shuffle n_models n_rows = .ok orders) :
    n_models = 5
    ∧ orders.length = n_rows
    ∧ latin_square_orders =
        base_squares.map (fun square_row => square_row.map (fun i => model_names.getD i ""))
    ∧ latin_square_orders.Nodup
    ∧ (∀ row ∈ orders, row ∈ latin_square_orders)
    ∧ (5 ≤ n_rows → (orders.take 5).Perm latin_square_orders)
    ∧ (∀ i < n_rows, orders.getD i [] = orders.getD (i % 5) [])
    ∧ (∀ m, m ≠ 5 → generate_latin_square_orders shuffle m n_rows =
        .error "This implementation is designed for exactly 5 models") := by
  obtain ⟨h5, horders⟩ := generate_ok_shape shuffle n_models n_rows orders hok
  have hlen : (shuffle latin_square_orders).length = 5 := shuffled_length shuffle hperm
  set ls := shuffle latin_square_orders with hls
  refine ⟨h5, ?_, rfl, by decide, ?_, ?_, ?_, ?_⟩
  · rw [horders]; simp
  · intro row hrow
    rw [horders] at hrow
    obtain ⟨i, _, hrow⟩ := List.mem_map.mp hrow
    have hi5 : i % 5 < ls.length := by rw [hlen]; exact Nat.mod_lt i (by omega)
    have : cycRow ls i = ls[i % 5] := by
      rw [cycRow, hlen]
      exact List.getD_eq_getElem ls [] hi5
    rw [← hrow, this]
    exact hperm.mem_iff.mp (List.getElem_mem hi5)
  · intro hge
    rw [horders, ← List.map_take, List.take_range 5 n_rows,
        Nat.min_eq_left hge, cycRow_first_block ls hlen]
    exact hperm
  · intro i hi
    have hval : ∀ j, j < n_rows → orders.getD j [] = cycRow ls j := by
      intro j hj
      rw [horders, List.getD_eq_getElem?_getD, List.getElem?_map, List.getElem?_range hj]
      rfl
    have hmod : i % 5 < n_rows := lt_of_le_of_lt (Nat.mod_le i 5) hi
    rw [hval i hi, hval (i % 5) hmod]
    simp only [cycRow, hlen, Nat.mod_mod_of_dvd i dvd_rfl]
  · intro m hm
    simp [generate_latin_square_orders, hm]

theorem generate_latin_square_orders_spec_witness :
    (5 : Nat) = 5
    ∧ ((List.range 7).map (cycRow latin_square_orders)).length = 7
    ∧ latin_square_orders =
        base_squares.map (fun square_row => square_row.map (fun i => model_names.getD i ""))
    ∧ latin_square_orders.Nodup
    ∧ (∀ row ∈ (List.range 7).map (cycRow latin_square_orders), row ∈ latin_square_orders)
    ∧ (5 ≤ 7 → (((List.range 7).map (cycRow latin_square_orders)).take 5).Perm latin_square_orders)
    ∧ (∀ i < 7, ((List.range 7).map (cycRow latin_square_orders)).getD i [] =
        ((List.range 7).map (cycRow latin_square_orders)).getD (i % 5) [])
    ∧ (∀ m, m ≠ 5 → generate_latin_square_orders (fun l => l) m 7 =
        .error "This implementation is designed for exactly 5 models") :=
  generate_latin_square_orders_spec (fun l => l) 5 7
    ((List.range 7).map (cycRow latin_square_orders)) (List.Perm.refl _) rfl

/-- C4: in every output of `generate_latin_square_orders(5, n_rows)`, each
model appears in each of the 5 positions either `n_rows / 5` (floor) or
`(n_rows + 4) / 5` (ceiling) times. -/
theorem generate_latin_square_orders_balanced
    (shuffle : List (List String) → List (List String))
    (n_rows : Nat) (orders : List (List String))
    (hperm : (shuffle latin_square_orders).Perm latin_square_orders)
    (hok : generate_latin_square_orders shuffle 5 n_rows = .ok orders)
    (model : String) (hmodel : model ∈ model_names) (pos : Nat) (hpos : pos < 5) :
    orders.countP (fun row => row.getD pos "" == model) = n_rows / 5
    ∨ orders.countP (fun row => row.getD pos "" == model) = (n_rows + 4) / 5 := by
  obtain ⟨-, horders⟩ := generate_ok_shape shuffle 5 n_rows orders hok
  have hlen : (shuffle latin_square_orders).length = 5 := shuffled_length shuffle hperm
  set ls := shuffle latin_square_orders with hls
  set p : List String → Bool := fun row => row.getD pos "" == model with hp
  have hbase : ∀ m ∈ model_names, ∀ q < 5,
      latin_square_orders.countP (fun row => row.getD q "" == m) = 1 := by decide
  have hone : ls.countP p = 1 := by
    rw [hperm.countP_eq p]
    exact hbase model hmodel pos hpos
  have hsplitn : 5 * (n_rows / 5) + n_rows % 5 = n_rows := Nat.div_add_mod n_rows 5
  have hcount : orders.countP p =
      (n_rows / 5) * ls.countP p + ((List.range (n_rows % 5)).map (cycRow ls)).countP p := by
    have h := cycRow_countP ls hlen p (n_rows / 5) (n_rows % 5)
    rw [hsplitn] at h
    rw [horders]
    exact h
  have hr5 : n_rows % 5 < 5 := Nat.mod_lt n_rows (by omega)
  have hle : ((List.range (n_rows % 5)).map (cycRow ls)).countP p ≤ 1 := by
    have := cycRow_prefix_countP_le ls hlen p (n_rows % 5) (le_of_lt hr5)
    omega
  have hzero : n_rows % 5 = 0 → ((List.range (n_rows % 5)).map (cycRow ls)).countP p = 0 := by
    intro h
    rw [h]
    simp
  rw [hone] at hcount
  by_cases h0 : n_rows % 5 = 0
  · left
    have := hzero h0
    omega
  · rcases Nat.lt_or_ge (((List.range (n_rows % 5)).map (cycRow ls)).countP p) 1 with hlt | hge
    · left; omega
    · right; omega

theorem generate_latin_square_orders_balanced_witness :
    ((List.range 7).map (cycRow latin_square_orders)).countP
        (fun row => row.getD 0 "" == "GPT_4o_2025") = 7 / 5
    ∨ ((List.range 7).map (cycRow latin_square_orders)).countP
        (fun row => row.getD 0 "" == "GPT_4o_2025") = (7 + 4) / 5 :=
  generate_latin_square_orders_balanced (fun l => l) 7
    ((List.range 7).map (cycRow latin_square_orders)) (List.Perm.refl _) rfl
    "GPT_4o_2025" (by decide) 0 (by decide)

/-! ## URL_database.py: Firestore-backed task URL service

A Firestore document of the `task_instances` collection is modelled with
exactly the fields the endpoint reads or writes; the collection is a list of
documents, a query stream yielding the first match. -/

structure FsTaskDoc where
  docId : String
  task_id : String
  available : Bool
  task_url : Option String
  response_url_1 : Option String
  response_url_2 : Option String
  response_url_3 : Option String
  response_url_4 : Option String
  response_url_5 : Option String
  assigned_at : Option Nat
deriving DecidableEq

/-- The JSON payload built by `get_task_urls` on success. -/
structure TaskUrlsPayload where
  task_url : Option String
  response_urls : List (Option String)
  task_instance_id : String
deriving DecidableEq

/-- The three ways the endpoint can respond. -/
inductive GetTaskUrlsResult where
  | missingParam
  | notFound
  | ok (payload : TaskUrlsPayload)
deriving DecidableEq

/-- The HTTP status code attached to each response. -/
def statusCode : GetTaskUrlsResult → Nat
  | .missingParam => 400
  | .notFound => 404
  | .ok _ => 200

/-- The Firestore query filter `task_id == tid AND available == true`. -/
def matchesQuery (tid : String) (d : FsTaskDoc) : Bool :=
  d.task_id == tid && d.available

/-- The transactional update: set `available` to `False` and write
`assigned_at = datetime.now()` on the document with the given id. -/
def markUnavailable (db : List FsTaskDoc) (docId : String) (now : Nat) : List FsTaskDoc :=
  db.map (fun d =>
    if d.docId == docId then { d with available := false, assigned_at := some now } else d)

/-- The `/get_task_urls` endpoint.  `task_id` is the query parameter
(`none` when absent; Python treats the empty string as missing too), `now`
the current time; the result is the response together with the collection
after the endpoint ran. -/
def get_task_urls (db : List FsTaskDoc) (task_id : Option String) (now : Nat) :
    GetTaskUrlsResult × List FsTaskDoc :=
  match task_id with
  | none => (.missingParam, db)
  | some tid =>
      if tid == "" then (.missingParam, db)
      else
        match db.find? (matchesQuery tid) with
        | none => (.notFound, db)
        | some task_doc =>
            (.ok { task_url := task_doc.task_url,
                   response_urls := [task_doc.response_url_1, task_doc.response_url_2,
                     task_doc.response_url_3, task_doc.response_url_4, task_doc.response_url_5],
                   task_instance_id := task_doc.docId },
             markUnavailable db task_doc.docId now)

/-- C1: when some document matches `task_id` with `available == true`, the
endpoint returns the payload of one such matching document and flips that
document's `available` field to `false` in the stored collection. -/
theorem get_task_urls_allocates
    (db : List FsTaskDoc) (tid : String) (now : Nat)
    (hne : tid ≠ "")
    (hmatch : ∃ d ∈ db, d.task_id = tid ∧ d.available = true) :
    ∃ d ∈ db, d.task_id = tid ∧ d.available = true
      ∧ (get_task_urls db (some tid) now).1 =
          .ok { task_url := d.task_url,
                response_urls := [d.response_url_1, d.response_url_2, d.response_url_3,
                  d.response_url_4, d.response_url_5],
                task_instance_id := d.docId }
      ∧ (get_task_urls db (some tid) now).2 = markUnavailable db d.docId now
      ∧ ∀ d2 ∈ (get_task_urls db (some tid) now).2,
          d2.docId = d.docId → d2.available = false ∧ d2.assigned_at = some now := by
  have hsome : (db.find? (matchesQuery tid)).isSome := by
    apply List.find?_isSome.mpr
    obtain ⟨d, hd, h1, h2⟩ := hmatch
    exact ⟨d, hd, by simp [matchesQuery, h1, h2]⟩
  obtain ⟨doc, hdoc⟩ := Option.isSome_iff_exists.mp hsome
  have hmem : doc ∈ db := List.mem_of_find?_eq_some hdoc
  have hpred : matchesQuery tid doc = true := List.find?_some hdoc
  have htid : doc.task_id = tid := by
    simp [matchesQuery] at hpred
    exact hpred.1
  have havail : doc.available = true := by
    simp [matchesQuery] at hpred
    exact hpred.2
  have hbeq : (tid == "") = false := by simp [hne]
  have hrun : get_task_urls db (some tid) now =
      (.ok { task_url := doc.task_url,
             response_urls := [doc.response_url_1, doc.response_url_2, doc.response_url_3,
               doc.response_url_4, doc.response_url_5],
             task_instance_id := doc.docId },
       markUnavailable db doc.docId now) := by
    simp [get_task_urls, hbeq, hdoc]
  refine ⟨doc, hmem, htid, havail, by rw [hrun], by rw [hrun], ?_⟩
  intro d2 hd2 hid
  rw [hrun] at hd2
  obtain ⟨d0, _, hd0⟩ := List.mem_map.mp hd2
  by_cases hif : (d0.docId == doc.docId) = true
  · rw [if_pos hif] at hd0
    subst hd0
    exact ⟨rfl, rfl⟩
  · rw [if_neg (by simp [hif])] at hd0
    subst hd0
    exact absurd hid (by simpa using hif)

theorem get_task_urls_allocates_witness :
    ∃ d ∈ [FsTaskDoc.mk "doc1" "t1" true (some "u") none none none none none none],
      d.task_id = "t1" ∧ d.available = true
      ∧ (get_task_urls [FsTaskDoc.mk "doc1" "t1" true (some "u") none none none none none none]
            (some "t1") 42).1 =
          .ok { task_url := d.task_url,
                response_urls := [d.response_url_1, d.response_url_2, d.response_url_3,
                  d.response_url_4, d.response_url_5],
                task_instance_id := d.docId }
      ∧ (get_task_urls [FsTaskDoc.mk "doc1" "t1" true (some "u") none none none none none none]
            (some "t1") 42).2 =
          markUnavailable [FsTaskDoc.mk "doc1" "t1" true (some "u") none none none none none none]
            d.docId 42
      ∧ ∀ d2 ∈ (get_task_urls
            [FsTaskDoc.mk "doc1" "t1" true (some "u") none none none none none none]
            (some "t1") 42).2,
          d2.docId = d.docId → d2.available = false ∧ d2.assigned_at = some 42 :=
  get_task_urls_allocates
    [FsTaskDoc.mk "doc1" "t1" true (some "u") none none none none none none]
    "t1" 42 (by decide)
    ⟨FsTaskDoc.mk "doc1" "t1" true (some "u") none none none none none none,
     by simp, rfl, rfl⟩

/-- C2: when no document matches `task_id` with `available == true`, the
endpoint answers HTTP 404 and leaves the collection unchanged (no
`available` flip, no `assigned_at` write). -/
theorem get_task_urls_no_match
    (db : List FsTaskDoc) (tid : String) (now : Nat)
    (hne : tid ≠ "")
    (hnomatch : ∀ d ∈ db, ¬(d.task_id = tid ∧ d.available = true)) :
    (get_task_urls db (some tid) now).1 = .notFound
    ∧ statusCode (get_task_urls db (some tid) now).1 = 404
    ∧ (get_task_urls db (some tid) now).2 = db := by
  have hnone : db.find? (matchesQuery tid) = none := by
    apply List.find?_eq_none.mpr
    intro d hd
    simp [matchesQuery]
    intro h1
    by_contra h2
    exact hnomatch d hd ⟨h1, by simpa using h2⟩
  have hbeq : (tid == "") = false := by simp [hne]
  have hrun : get_task_urls db (some tid) now = (.notFound, db) := by
    simp [get_task_urls, hbeq, hnone]
  exact ⟨by rw [hrun], by rw [hrun]; rfl, by rw [hrun]⟩

theorem get_task_urls_no_match_witness :
    (get_task_urls [FsTaskDoc.mk "doc1" "t1" false none none none none none none none]
        (some "t1") 42).1 = .notFound
    ∧ statusCode (get_task_urls
        [FsTaskDoc.mk "doc1" "t1" false none none none none none none none]
        (some "t1") 42).1 = 404
    ∧ (get_task_urls [FsTaskDoc.mk "doc1" "t1" false none none none none none none none]
        (some "t1") 42).2 =
        [FsTaskDoc.mk "doc1" "t1" false none none none none none none none] :=
  get_task_urls_no_match
    [FsTaskDoc.mk "doc1" "t1" false none none none none none none none]
    "t1" 42 (by decide) (by decide)

/-! ## URL_database.py: the `/import_data` endpoint

An imported item is a dict from field name to a scalar value; a CSV cell may
additionally be pandas `NaN`, which the endpoint converts to `None` before
writing.  `uuid.uuid4()` is an oracle `uuidGen` indexed by item position. -/

/-- A scalar value stored in a Firestore record. -/
inductive PVal where
  | s (x : String)
  | i (x : Int)
  | b (x : Bool)
  | null
deriving DecidableEq

/-- A CSV cell as pandas reads it (a missing cell is `NaN`). -/
inductive CsvCell where
  | s (x : String)
  | i (x : Int)
  | nan
deriving DecidableEq

/-- The per-cell conversion `v if pd.notna(v) else None`. -/
def cellToVal : CsvCell → PVal
  | .s x => .s x
  | .i x => .i x
  | .nan => .null

/-- A CSV row converted to an importable item. -/
def csvItem (row : List (String × CsvCell)) : List (String × PVal) :=
  row.map (fun kv => (kv.1, cellToVal kv.2))

/-- Python `str(...)` on a stored value. -/
def pyValStr : PVal → String
  | .s x => x
  | .i x => toString x
  | .b true => "True"
  | .b false => "False"
  | .null => "None"

/-- `str(item.get('task_instance_id', uuid.uuid4()))`. -/
def docIdOf (uuid : String) (item : List (String × PVal)) : String :=
  match List.lookup "task_instance_id" item with
  | some v => pyValStr v
  | none => uuid

/-- The default-availability step:
`if 'available' not in item: item['available'] = True`. -/
def setDefaultAvailable (item : List (String × PVal)) : List (String × PVal) :=
  match List.lookup "available" item with
  | some _ => item
  | none => item ++ [("available", .b true)]

/-- The records written by the CSV branch of `/import_data`, in batch order
(batching in groups of 400 only groups the writes; each row yields one
`batch.set(doc_ref, item)`). -/
def import_csv_records (uuidGen : Nat → String) (rows : List (List (String × CsvCell))) :
    List (String × List (String × PVal)) :=
  rows.enum.map (fun x =>
    let item := csvItem x.2
    (docIdOf (uuidGen x.1) item, setDefaultAvailable item))

/-- The records written by the JSON branch of `/import_data`. -/
def import_json_records (uuidGen : Nat → String) (items : List (List (String × PVal))) :
    List (String × List (String × PVal)) :=
  items.enum.map (fun x => (docIdOf (uuidGen x.1) x.2, setDefaultAvailable x.2))

theorem lookup_append_of_lookup_none {α : Type} (k : String)
    (l l2 : List (String × α)) (h : List.lookup k l = none) :
    List.lookup k (l ++ l2) = List.lookup k l2 := by
  induction l with
  | nil => rfl
  | cons a t ih =>
      obtain ⟨a1, a2⟩ := a
      by_cases hk : (k == a1) = true
      · simp [List.lookup, hk] at h
      · simp only [List.cons_append, List.lookup, hk, if_false] at h ⊢
        exact ih h

theorem lookup_setDefaultAvailable (item : List (String × PVal)) :
    List.lookup "available" (setDefaultAvailable item) =
      some ((List.lookup "available" item).getD (.b true)) := by
  unfold setDefaultAvailable
  cases h : List.lookup "available" item with
  | some v => simp [h]
  | none =>
      rw [lookup_append_of_lookup_none "available" item _ h]
      rfl

theorem lookup_csvItem (row : List (String × CsvCell)) (k : String) :
    List.lookup k (csvItem row) = (List.lookup k row).map cellToVal := by
  induction row with
  | nil => rfl
  | cons a t ih =>
      by_cases h : (k == a.1) = true
      · simp [csvItem, List.lookup, h]
      · simp [csvItem, List.lookup, h] at ih ⊢
        exact ih

/-- C10: every record written by `/import_data` (CSV or JSON branch) carries
an `available` field, and a row or item that does not supply one is written
with `available = True`. -/
theorem import_data_available_default
    (uuidGen : Nat → String) (rows : List (List (String × CsvCell)))
    (items : List (List (String × PVal))) (i j : Nat)
    (row : List (String × CsvCell)) (item : List (String × PVal))
    (hrow : rows[i]? = some row) (hitem : items[j]? = some item) :
    (∀ rec ∈ import_csv_records uuidGen rows, (List.lookup "available" rec.2).isSome = true)
    ∧ (∀ rec ∈ import_json_records uuidGen items, (List.lookup "available" rec.2).isSome = true)
    ∧ (import_csv_records uuidGen rows)[i]? =
        some (docIdOf (uuidGen i) (csvItem row), setDefaultAvailable (csvItem row))
    ∧ (List.lookup "available" row = none →
        setDefaultAvailable (csvItem row) = csvItem row ++ [("available", PVal.b true)]
        ∧ List.lookup "available" (setDefaultAvailable (csvItem row)) = some (PVal.b true))
    ∧ (import_json_records uuidGen items)[j]? =
        some (docIdOf (uuidGen j) item, setDefaultAvailable item)
    ∧ (List.lookup "available" item = none →
        setDefaultAvailable item = item ++ [("available", PVal.b true)]
        ∧ List.lookup "available" (setDefaultAvailable item) = some (PVal.b true)) := by
  refine ⟨?_, ?_, ?_, ?_, ?_, ?_⟩
  · intro rec hrec
    obtain ⟨x, _, hx⟩ := List.mem_map.mp hrec
    rw [← hx]
    simp [lookup_setDefaultAvailable]
  · intro rec hrec
    obtain ⟨x, _, hx⟩ := List.mem_map.mp hrec
    rw [← hx]
    simp [lookup_setDefaultAvailable]
  · unfold import_csv_records
    rw [List.getElem?_map, List.getElem?_enum, hrow]
    rfl
  · intro h
    have hconv : List.lookup "available" (csvItem row) = none := by
      rw [lookup_csvItem, h]
      rfl
    constructor
    · unfold setDefaultAvailable
      rw [hconv]
    · rw [lookup_setDefaultAvailable, hconv]
      rfl
  · unfold import_json_records
    rw [List.getElem?_map, List.getElem?_enum, hitem]
    rfl
  · intro h
    constructor
    · unfold setDefaultAvailable
      rw [h]
    · rw [lookup_setDefaultAvailable, h]
      rfl

theorem import_data_available_default_witness :
    (∀ rec ∈ import_csv_records (fun _ => "uuid0") [[("x", CsvCell.s "v")]],
        (List.lookup "available" rec.2).isSome = true)
    ∧ (∀ rec ∈ import_json_records (fun _ => "uuid0") [[("available", PVal.b false)]],
        (List.lookup "available" rec.2).isSome = true)
    ∧ (import_csv_records (fun _ => "uuid0") [[("x", CsvCell.s "v")]])[0]? =
        some (docIdOf "uuid0" (csvItem [("x", CsvCell.s "v")]),
          setDefaultAvailable (csvItem [("x", CsvCell.s "v")]))
    ∧ (List.lookup "available" [("x", CsvCell.s "v")] = none →
        setDefaultAvailable (csvItem [("x", CsvCell.s "v")]) =
          csvItem [("x", CsvCell.s "v")] ++ [("available", PVal.b true)]
        ∧ List.lookup "available" (setDefaultAvailable (csvItem [("x", CsvCell.s "v")])) =
          some (PVal.b true))
    ∧ (import_json_records (fun _ => "uuid0") [[("available", PVal.b false)]])[0]? =
        some (docIdOf "uuid0" [("available", PVal.b false)],
          setDefaultAvailable [("available", PVal.b false)])
    ∧ (List.lookup "available" [("available", PVal.b false)] = none →
        setDefaultAvailable [("available", PVal.b false)] =
          [("available", PVal.b false)] ++ [("available", PVal.b true)]
        ∧ List.lookup "available" (setDefaultAvailable [("available", PVal.b false)]) =
          some (PVal.b true)) :=
  import_data_available_default (fun _ => "uuid0") [[("x", CsvCell.s "v")]]
    [[("available", PVal.b false)]] 0 0 [("x", CsvCell.s "v")] [("available", PVal.b false)]
    rfl rfl

/-! ## generate_review_plan.py

A Prolific submission is modelled with the four fields the script reads
(`sub.get('study_code', '')` defaults to the empty string, the others to
whatever the API returned); `participant_data` is the dict produced by
`load_participant_flags`, mapping prolific ids to CSV rows. -/

structure Submission where
  id : String
  participant_id : String
  status : String
  study_code : String
deriving DecidableEq

structure PlanEntry where
  prolific_submission_id : String
  prolific_participant_id : String
  current_prolific_status : String
  actual_completion_code : String
  local_status : String
  local_reason : String
  local_category : String
  validation_status : String
  proposed_action : String
  notes : String
deriving DecidableEq

structure ValidationSummary where
  n_matches : Nat
  n_mismatches : Nat
  n_csv_only : Nat
  n_code_only : Nat
  n_neither : Nat
deriving DecidableEq

/-- The completion-code / local-status agreement table of
`generate_review_plan`. -/
def codeAgrees (code status : String) : Bool :=
  (["C1DQRLH1", "COMPLETION_CODE_APPROVED"].contains code && status == "APPROVED")
  || (["TIMEOUT", "FAILED_ATTENTION"].contains code && status == "REJECTED")
  || (["NO_CONSENT", "SCREENED_OUT"].contains code
        && ["SCREENED-OUT", "REJECTED"].contains status)

/-- Build a plan entry from the loop state of `generate_review_plan`. -/
def baseEntry (sub : Submission)
    (local_status local_reason local_category vs pa notes : String) : PlanEntry :=
  { prolific_submission_id := sub.id
    prolific_participant_id := sub.participant_id
    current_prolific_status := sub.status
    actual_completion_code := sub.study_code
    local_status := local_status
    local_reason := local_reason
    local_category := local_category
    validation_status := vs
    proposed_action := pa
    notes := notes }

/-- One iteration of the `for sub in prolific_submissions` loop: the entry
appended to `review_plan`. -/
def reviewEntry (participant_data : List (String × CsvRow)) (sub : Submission) : PlanEntry :=
  let code := sub.study_code
  match List.lookup sub.participant_id participant_data with
  | some csv_row =>
      let local_status := pyStrip (rowGet csv_row "status")
      let local_reason := pyStrip (rowGet csv_row "reason")
      let local_category := pyStrip (rowGet csv_row "category")
      if !(code == "") && !(local_status == "") then
        if codeAgrees code local_status then
          baseEntry sub local_status local_reason local_category "MATCH"
            (if local_status == "APPROVED" then "APPROVE"
             else if local_status == "REJECTED" then "REJECT"
             else if local_status == "SCREENED-OUT" then "SCREEN_OUT"
             else "NO_ACTION_NO_CSV_DATA") ""
        else
          baseEntry sub local_status local_reason local_category "MISMATCH"
            "MANUAL_REVIEW_MISMATCH"
            ("Local analysis: " ++ local_status ++ " but Qualtrics code: " ++ code)
      else if !(code == "") && (local_status == "") then
        baseEntry sub local_status local_reason local_category "CODE_ONLY"
          "MANUAL_REVIEW_NO_LOCAL_DECISION"
          "Qualtrics assigned code but no local decision found"
      else if (code == "") && !(local_status == "") then
        baseEntry sub local_status local_reason local_category "CSV_ONLY"
          (if local_status == "APPROVED" then "APPROVE_NO_CODE"
           else if local_status == "REJECTED" then "REJECT_NO_CODE"
           else if local_status == "SCREENED-OUT" then "SCREEN_OUT_NO_CODE"
           else "NO_ACTION_NO_CSV_DATA")
          "Local decision exists but no completion code from Qualtrics"
      else
        baseEntry sub local_status local_reason local_category "NEITHER"
          "MANUAL_REVIEW_NO_DATA" "No completion code and no local decision"
  | none =>
      if !(code == "") then
        baseEntry sub "" "" "" "NO_CSV_DATA" "APPROVE_NO_LOCAL_DATA"
          "Using completion code (participant not in local data)"
      else
        baseEntry sub "" "" "" "NO_CSV_DATA" "MANUAL_REVIEW_NO_LOCAL_DATA" ""

/-- The `validation_summary` increment performed in the same branch that
sets `validation_status`. -/
def bumpSummary (s : ValidationSummary) (vs : String) : ValidationSummary :=
  if vs == "MATCH" then { s with n_matches := s.n_matches + 1 }
  else if vs == "MISMATCH" then { s with n_mismatches := s.n_mismatches + 1 }
  else if vs == "CODE_ONLY" then { s with n_code_only := s.n_code_only + 1 }
  else if vs == "CSV_ONLY" then { s with n_csv_only := s.n_csv_only + 1 }
  else if vs == "NEITHER" then { s with n_neither := s.n_neither + 1 }
  else s

/-- One iteration of the loop body acting on `(review_plan, validation_summary)`. -/
def reviewStep (participant_data : List (String × CsvRow))
    (acc : List PlanEntry × ValidationSummary) (sub : Submission) :
    List PlanEntry × ValidationSummary :=
  let e := reviewEntry participant_data sub
  (acc.1 ++ [e], bumpSummary acc.2 e.validation_status)

/-- `generate_review_plan(prolific_submissions, participant_data)`: returns
the review plan and the validation summary the script prints. -/
def generate_review_plan (prolific_submissions : List Submission)
    (participant_data : List (String × CsvRow)) :
    List PlanEntry × ValidationSummary :=
  prolific_submissions.foldl (reviewStep participant_data) ([], ⟨0, 0, 0, 0, 0⟩)

theorem bumpSummary_mismatches (s : ValidationSummary) (vs : String) :
    (bumpSummary s vs).n_mismatches =
      s.n_mismatches + (if vs == "MISMATCH" then 1 else 0) := by
  unfold bumpSummary
  split_ifs with h1 h2 h3 h4 h5 <;> simp_all

theorem review_fold_shape (participant_data : List (String × CsvRow))
    (subs : List Submission) (acc : List PlanEntry × ValidationSummary) :
    (subs.foldl (reviewStep participant_data) acc).1 =
      acc.1 ++ subs.map (reviewEntry participant_data)
    ∧ (subs.foldl (reviewStep participant_data) acc).2.n_mismatches =
      acc.2.n_mismatches +
        (subs.map (reviewEntry participant_data)).countP
          (fun e => e.validation_status == "MISMATCH") := by
  induction subs generalizing acc with
  | nil => simp
  | cons s t ih =>
      rw [List.foldl_cons]
      obtain ⟨ih1, ih2⟩ := ih (reviewStep participant_data acc s)
      constructor
      · rw [ih1]
        simp [reviewStep]
      · rw [ih2]
        simp only [reviewStep, bumpSummary_mismatches, List.map_cons, List.countP_cons]
        simp
        omega

/-- C7: `generate_review_plan` yields exactly one plan entry per submission,
its reported mismatch count equals the number of plan entries whose
`validation_status` is `"MISMATCH"`, and an entry is a mismatch exactly when
the submission has a completion code, a local status exists for its
participant, and the code/status pair is outside the agreement table. -/
theorem generate_review_plan_spec
    (subs : List Submission) (participant_data : List (String × CsvRow)) :
    (generate_review_plan subs participant_data).1.length = subs.length
    ∧ (generate_review_plan subs participant_data).1 =
        subs.map (reviewEntry participant_data)
    ∧ (generate_review_plan subs participant_data).2.n_mismatches =
        (generate_review_plan subs participant_data).1.countP
          (fun e => e.validation_status == "MISMATCH")
    ∧ (∀ sub : Submission,
        (reviewEntry participant_data sub).validation_status = "MISMATCH" ↔
          ∃ csv_row, List.lookup sub.participant_id participant_data = some csv_row
            ∧ sub.study_code ≠ ""
            ∧ pyStrip (rowGet csv_row "status") ≠ ""
            ∧ codeAgrees sub.study_code (pyStrip (rowGet csv_row "status")) = false) := by
  obtain ⟨hshape, hmm⟩ :=
    review_fold_shape participant_data subs ([], ⟨0, 0, 0, 0, 0⟩)
  have hplan : (generate_review_plan subs participant_data).1 =
      subs.map (reviewEntry participant_data) := by
    rw [generate_review_plan, hshape]
    rfl
  refine ⟨by rw [hplan]; simp, hplan, ?_, ?_⟩
  · rw [hplan, generate_review_plan, hmm]
    simp
  · intro sub
    cases hl : List.lookup sub.participant_id participant_data with
    | none =>
        constructor
        · intro h
          exfalso
          unfold reviewEntry at h
          rw [hl] at h
          by_cases hc : (sub.study_code == "") = true
          · simp [hc, baseEntry] at h
          · simp [hc, baseEntry] at h
        · rintro ⟨row, hrow, -⟩
          exact Option.noConfusion hrow
    | some row =>
        by_cases hc : (sub.study_code == "") = true
        · constructor
          · intro h
            exfalso
            unfold reviewEntry at h
            rw [hl] at h
            by_cases hs : (pyStrip (rowGet row "status") == "") = true
            · simp [hc, hs, baseEntry] at h
            · simp [hc, hs, baseEntry] at h
          · rintro ⟨row2, hrow2, hcne, -, -⟩
            exact absurd (by simpa using hc) hcne
        · by_cases hs : (pyStrip (rowGet row "status") == "") = true
          · constructor
            · intro h
              exfalso
              unfold reviewEntry at h
              rw [hl] at h
              simp [hc, hs, baseEntry] at h
            · rintro ⟨row2, hrow2, -, hsne, -⟩
              injection hrow2 with hr2
              subst hr2
              exact absurd (by simpa using hs) hsne
          · by_cases hag : codeAgrees sub.study_code (pyStrip (rowGet row "status")) = true
            · constructor
              · intro h
                exfalso
                unfold reviewEntry at h
                rw [hl] at h
                simp [hc, hs, hag, baseEntry] at h
              · rintro ⟨row2, hrow2, -, -, hagf⟩
                injection hrow2 with hr2
                subst hr2
                rw [hag] at hagf
                exact Bool.noConfusion hagf
            · constructor
              · intro _
                exact ⟨row, rfl, by simpa using hc, by simpa using hs,
                  by simpa using hag⟩
              · intro _
                unfold reviewEntry
                rw [hl]
                simp [hc, hs, hag, baseEntry]

theorem generate_review_plan_spec_witness :
    (generate_review_plan [Submission.mk "s1" "p1" "AWAITING REVIEW" "NO_CONSENT"]
        [("p1", [("status", "APPROVED")])]).1.length = 1
    ∧ (generate_review_plan [Submission.mk "s1" "p1" "AWAITING REVIEW" "NO_CONSENT"]
        [("p1", [("status", "APPROVED")])]).1 =
        [Submission.mk "s1" "p1" "AWAITING REVIEW" "NO_CONSENT"].map
          (reviewEntry [("p1", [("status", "APPROVED")])])
    ∧ (generate_review_plan [Submission.mk "s1" "p1" "AWAITING REVIEW" "NO_CONSENT"]
        [("p1", [("status", "APPROVED")])]).2.n_mismatches =
        (generate_review_plan [Submission.mk "s1" "p1" "AWAITING REVIEW" "NO_CONSENT"]
          [("p1", [("status", "APPROVED")])]).1.countP
          (fun e => e.validation_status == "MISMATCH")
    ∧ ((reviewEntry [("p1", [("status", "APPROVED")])]
          (Submission.mk "s1" "p1" "AWAITING REVIEW" "NO_CONSENT")).validation_status
            = "MISMATCH" ↔
        ∃ csv_row, List.lookup "p1" [("p1", [("status", "APPROVED")])] = some csv_row
          ∧ "NO_CONSENT" ≠ ""
          ∧ pyStrip (rowGet csv_row "status") ≠ ""
          ∧ codeAgrees "NO_CONSENT" (pyStrip (rowGet csv_row "status")) = false) :=
  ⟨(generate_review_plan_spec [Submission.mk "s1" "p1" "AWAITING REVIEW" "NO_CONSENT"]
      [("p1", [("status", "APPROVED")])]).1,
   (generate_review_plan_spec [Submission.mk "s1" "p1" "AWAITING REVIEW" "NO_CONSENT"]
      [("p1", [("status", "APPROVED")])]).2.1,
   (generate_review_plan_spec [Submission.mk "s1" "p1" "AWAITING REVIEW" "NO_CONSENT"]
      [("p1", [("status", "APPROVED")])]).2.2.1,
   (generate_review_plan_spec [Submission.mk "s1" "p1" "AWAITING REVIEW" "NO_CONSENT"]
      [("p1", [("status", "APPROVED")])]).2.2.2
      (Submission.mk "s1" "p1" "AWAITING REVIEW" "NO_CONSENT")⟩

/-! ## qualtrics_database.py: SQLite-backed task service

The three tables are lists of typed rows.  SQLite applies INTEGER affinity
to the textual `task_id` request parameter before comparing it with the
INTEGER column, so the parameter is modelled post-affinity as `Int`.
`random.sample(all_models, 5)` is the oracle `sample`, constrained in the
theorems to return 5 elements of its input. -/

structure TaskRow where
  id : Int
  task_id : Int
  occupation : String
deriving DecidableEq

structure TaskInstanceRow where
  id : Int
  task_id : Int
  instance_number : Int
  pdf_url : String
  is_assigned : Bool
  is_completed : Bool
  assigned_round : Int
deriving DecidableEq

structure ModelResponseRow where
  id : Int
  task_instance_id : Int
  model_number : Int
  pdf_url : String
deriving DecidableEq

structure TaskDb where
  tasks : List TaskRow
  task_instances : List TaskInstanceRow
  model_responses : List ModelResponseRow
deriving DecidableEq

/-- The WHERE clause of the instance-selection query:
`(is_assigned = FALSE) OR (is_completed = FALSE AND assigned_round < ?)`,
restricted to the requested task. -/
def instanceEligible (round_id task_db_id : Int) (r : TaskInstanceRow) : Bool :=
  r.task_id == task_db_id
    && (!r.is_assigned || (!r.is_completed && decide (r.assigned_round < round_id)))

/-- One step of computing `ORDER BY instance_number ASC LIMIT 1`:
keep the row with the smaller `instance_number`. -/
def stepMin (acc : Option TaskInstanceRow) (r : TaskInstanceRow) : Option TaskInstanceRow :=
  match acc with
  | none => some r
  | some b => if r.instance_number < b.instance_number then some r else some b

/-- `ORDER BY instance_number ASC LIMIT 1` over the filtered rows. -/
def pickMinInstance (l : List TaskInstanceRow) : Option TaskInstanceRow :=
  l.foldl stepMin none

/-- The UPDATE `SET is_assigned = TRUE, assigned_round = ? WHERE id = ?`. -/
def markAssigned (instances : List TaskInstanceRow) (instId round_id : Int) :
    List TaskInstanceRow :=
  instances.map (fun r =>
    if r.id == instId then { r with is_assigned := true, assigned_round := round_id } else r)

/-- `get_next_task_instance(task_id, occupation, round_id)`: returns the
optional `(task_instance_url, model_urls)` pair together with the database
after the commit. -/
def get_next_task_instance (sample : List String → List String)
    (db : TaskDb) (task_id : Int) (occupation : String) (round_id : Int) :
    Option (String × List (Option String)) × TaskDb :=
  match db.tasks.find? (fun t => t.task_id == task_id && t.occupation == occupation) with
  | none => (none, db)
  | some task_row =>
      let task_db_id := task_row.id
      match pickMinInstance (db.task_instances.filter (instanceEligible round_id task_db_id)) with
      | none => (none, db)
      | some inst =>
          let all_models := (db.model_responses.filter
            (fun m => m.task_instance_id == inst.id)).map (fun m => m.pdf_url)
          let selected_models :=
            if 5 < all_models.length then (sample all_models).map some
            else all_models.map some ++ List.replicate (5 - all_models.length) none
          (some (inst.pdf_url, selected_models),
           { db with task_instances := markAssigned db.task_instances inst.id round_id })

theorem stepMin_fold_mem (l : List TaskInstanceRow) :
    ∀ (acc : Option TaskInstanceRow) (r : TaskInstanceRow),
      l.foldl stepMin acc = some r → acc = some r ∨ r ∈ l := by
  induction l with
  | nil =>
      intro acc r h
      exact Or.inl h
  | cons x t ih =>
      intro acc r h
      rw [List.foldl_cons] at h
      rcases ih (stepMin acc x) r h with hacc | hmem
      · cases acc with
        | none =>
            right
            injection hacc with he
            exact he ▸ List.mem_cons_self x t
        | some b =>
            simp only [stepMin] at hacc
            by_cases hlt : x.instance_number < b.instance_number
            · rw [if_pos hlt] at hacc
              right
              injection hacc with he
              exact he ▸ List.mem_cons_self x t
            · rw [if_neg hlt] at hacc
              exact Or.inl hacc
      · exact Or.inr (List.mem_cons_of_mem x hmem)

theorem pickMinInstance_mem (l : List TaskInstanceRow) (r : TaskInstanceRow)
    (h : pickMinInstance l = some r) : r ∈ l := by
  rcases stepMin_fold_mem l none r h with hacc | hmem
  · exact Option.noConfusion hacc
  · exact hmem

theorem get_next_task_instance_some
    (sample : List String → List String) (db : TaskDb) (tid : Int) (occ : String)
    (round_id : Int) (res : String × List (Option String)) (db' : TaskDb)
    (hrun : get_next_task_instance sample db tid occ round_id = (some res, db')) :
    ∃ task_row inst,
      db.tasks.find? (fun t => t.task_id == tid && t.occupation == occ) = some task_row
      ∧ pickMinInstance (db.task_instances.filter (instanceEligible round_id task_row.id))
          = some inst
      ∧ res.1 = inst.pdf_url
      ∧ res.2 =
          (if 5 < ((db.model_responses.filter
                (fun m => m.task_instance_id == inst.id)).map (fun m => m.pdf_url)).length
           then (sample ((db.model_responses.filter
                (fun m => m.task_instance_id == inst.id)).map (fun m => m.pdf_url))).map some
           else ((db.model_responses.filter
                (fun m => m.task_instance_id == inst.id)).map (fun m => m.pdf_url)).map some
             ++ List.replicate (5 - ((db.model_responses.filter
                (fun m => m.task_instance_id == inst.id)).map (fun m => m.pdf_url)).length) none)
      ∧ db' = { db with task_instances := markAssigned db.task_instances inst.id round_id } := by
  unfold get_next_task_instance at hrun
  split at hrun
  · simp at hrun
  · rename_i task_row hfind
    simp only at hrun
    split at hrun
    · simp at hrun
    · rename_i inst hpick
      have h1 := congrArg Prod.fst hrun
      have h2 := congrArg Prod.snd hrun
      simp only at h1 h2
      injection h1 with h1
      exact ⟨task_row, inst, hfind, hpick, by rw [← h1], by rw [← h1], h2.symm⟩

theorem markAssigned_id (instances : List TaskInstanceRow) (instId round_id : Int)
    (r : TaskInstanceRow) (hr : r ∈ markAssigned instances instId round_id)
    (hid : r.id = instId) : r.is_assigned = true ∧ r.assigned_round = round_id := by
  obtain ⟨r0, -, hr0⟩ := List.mem_map.mp hr
  by_cases hif : (r0.id == instId) = true
  · rw [if_pos hif] at hr0
    rw [← hr0]
    exact ⟨rfl, rfl⟩
  · rw [if_neg (by simpa using hif)] at hr0
    subst hr0
    exact absurd hid (by simpa using hif)

/-- C5 counterexample: the claim that every instance handed out by
`get_next_task_instance` is unassigned at selection time is false: an
already-assigned but incomplete instance from an earlier round is also
eligible and gets handed out. -/
theorem get_next_task_instance_unassigned_only_false :
    ¬ (∀ (sample : List String → List String) (db : TaskDb) (tid : Int) (occ : String)
        (round_id : Int) (res : String × List (Option String)) (db' : TaskDb),
        get_next_task_instance sample db tid occ round_id = (some res, db') →
        ∃ inst ∈ db.task_instances, inst.pdf_url = res.1 ∧ inst.is_assigned = false ∧
          db'.task_instances = markAssigned db.task_instances inst.id round_id) := by
  intro h
  obtain ⟨inst, hmem, hurl, hassigned, -⟩ :=
    h (fun l => l.take 5)
      (TaskDb.mk [TaskRow.mk 1 10 "nurse"]
        [TaskInstanceRow.mk 1 1 1 "inst1.pdf" true false 0] [])
      10 "nurse" 1 ("inst1.pdf", [none, none, none, none, none])
      (TaskDb.mk [TaskRow.mk 1 10 "nurse"]
        [TaskInstanceRow.mk 1 1 1 "inst1.pdf" true false 1] [])
      (by decide)
  simp at hmem
  rw [hmem] at hassigned
  exact Bool.noConfusion hassigned

/-- C5 (amended): every instance handed out by `get_next_task_instance` was
eligible at selection time, meaning unassigned or incomplete from an
earlier round, and on return it is marked `is_assigned = TRUE` with
`assigned_round` set to the requested round. -/
theorem get_next_task_instance_allocates
    (sample : List String → List String) (db : TaskDb) (tid : Int) (occ : String)
    (round_id : Int) (res : String × List (Option String)) (db' : TaskDb)
    (hrun : get_next_task_instance sample db tid occ round_id = (some res, db')) :
    ∃ inst ∈ db.task_instances,
      inst.pdf_url = res.1
      ∧ (inst.is_assigned = false
          ∨ (inst.is_completed = false ∧ inst.assigned_round < round_id))
      ∧ db'.task_instances = markAssigned db.task_instances inst.id round_id
      ∧ ∀ r ∈ db'.task_instances, r.id = inst.id →
          r.is_assigned = true ∧ r.assigned_round = round_id := by
  obtain ⟨task_row, inst, hfind, hpick, hres1, -, hdb⟩ :=
    get_next_task_instance_some sample db tid occ round_id res db' hrun
  have hfmem := pickMinInstance_mem _ inst hpick
  rw [List.mem_filter] at hfmem
  obtain ⟨hmem, helig⟩ := hfmem
  have helig2 : inst.is_assigned = false
      ∨ (inst.is_completed = false ∧ inst.assigned_round < round_id) := by
    unfold instanceEligible at helig
    simp at helig
    rcases helig.2 with h | h
    · exact Or.inl h
    · exact Or.inr h
  refine ⟨inst, hmem, hres1.symm, helig2, by rw [hdb], ?_⟩
  intro r hr hid
  rw [hdb] at hr
  exact markAssigned_id db.task_instances inst.id round_id r hr hid

theorem get_next_task_instance_allocates_witness :
    ∃ inst ∈ [TaskInstanceRow.mk 1 1 1 "inst1.pdf" true false 0],
      inst.pdf_url = ("inst1.pdf", ([none, none, none, none, none] : List (Option String))).1
      ∧ (inst.is_assigned = false ∨ (inst.is_completed = false ∧ inst.assigned_round < 1))
      ∧ (TaskDb.mk [TaskRow.mk 1 10 "nurse"]
          [TaskInstanceRow.mk 1 1 1 "inst1.pdf" true false 1] []).task_instances =
          markAssigned [TaskInstanceRow.mk 1 1 1 "inst1.pdf" true false 0] inst.id 1
      ∧ ∀ r ∈ (TaskDb.mk [TaskRow.mk 1 10 "nurse"]
          [TaskInstanceRow.mk 1 1 1 "inst1.pdf" true false 1] []).task_instances,
          r.id = inst.id → r.is_assigned = true ∧ r.assigned_round = 1 :=
  get_next_task_instance_allocates (fun l => l.take 5)
    (TaskDb.mk [TaskRow.mk 1 10 "nurse"]
      [TaskInstanceRow.mk 1 1 1 "inst1.pdf" true false 0] [])
    10 "nurse" 1 ("inst1.pdf", [none, none, none, none, none])
    (TaskDb.mk [TaskRow.mk 1 10 "nurse"]
      [TaskInstanceRow.mk 1 1 1 "inst1.pdf" true false 1] [])
    (by decide)

/-- C8: whenever `get_next_task_instance` finds an eligible instance, the
model-URL list it returns has length exactly 5: a 5-element selection of
the instance's responses when more than 5 exist, otherwise all responses
padded with `None` up to 5. -/
theorem get_next_task_instance_five_models
    (sample : List String → List String)
    (hsample : ∀ l : List String, 5 ≤ l.length →
        (sample l).length = 5 ∧ ∀ x ∈ sample l, x ∈ l)
    (db : TaskDb) (tid : Int) (occ : String) (round_id : Int)
    (res : String × List (Option String)) (db' : TaskDb)
    (hrun : get_next_task_instance sample db tid occ round_id = (some res, db')) :
    res.2.length = 5
    ∧ ∃ inst ∈ db.task_instances,
        res.1 = inst.pdf_url
        ∧ (if 5 < ((db.model_responses.filter
              (fun m => m.task_instance_id == inst.id)).map (fun m => m.pdf_url)).length
           then ∀ x ∈ res.2, ∃ s, x = some s ∧
              s ∈ (db.model_responses.filter
                (fun m => m.task_instance_id == inst.id)).map (fun m => m.pdf_url)
           else res.2 = ((db.model_responses.filter
                (fun m => m.task_instance_id == inst.id)).map (fun m => m.pdf_url)).map some
             ++ List.replicate (5 - ((db.model_responses.filter
                (fun m => m.task_instance_id == inst.id)).map (fun m => m.pdf_url)).length)
                none) := by
  obtain ⟨task_row, inst, hfind, hpick, hres1, hres2, -⟩ :=
    get_next_task_instance_some sample db tid occ round_id res db' hrun
  have hmem : inst ∈ db.task_instances := by
    have := pickMinInstance_mem _ inst hpick
    exact (List.mem_filter.mp this).1
  by_cases hlen : 5 < ((db.model_responses.filter
      (fun m => m.task_instance_id == inst.id)).map (fun m => m.pdf_url)).length
  · rw [if_pos hlen] at hres2
    obtain ⟨hslen, hsmem⟩ := hsample _ (le_of_lt hlen)
    constructor
    · rw [hres2]
      simpa using hslen
    · refine ⟨inst, hmem, hres1, ?_⟩
      rw [if_pos hlen]
      intro x hx
      rw [hres2] at hx
      obtain ⟨s, hs, hxs⟩ := List.mem_map.mp hx
      exact ⟨s, hxs.symm, hsmem s hs⟩
  · rw [if_neg hlen] at hres2
    constructor
    · rw [hres2]
      simp only [List.length_append, List.length_map, List.length_replicate]
      simp only [List.length_map] at hlen
      omega
    · refine ⟨inst, hmem, hres1, ?_⟩
      rw [if_neg hlen]
      exact hres2

theorem get_next_task_instance_five_models_witness :
    (("i1.pdf", ([some "m1.pdf", some "m2.pdf", none, none, none] : List (Option String))).2.length = 5)
    ∧ ∃ inst ∈ [TaskInstanceRow.mk 1 1 1 "i1.pdf" false false 0],
        ("i1.pdf", ([some "m1.pdf", some "m2.pdf", none, none, none] : List (Option String))).1
          = inst.pdf_url
        ∧ (if 5 < (((TaskDb.mk [TaskRow.mk 1 10 "nurse"]
              [TaskInstanceRow.mk 1 1 1 "i1.pdf" false false 0]
              [ModelResponseRow.mk 1 1 1 "m1.pdf", ModelResponseRow.mk 2 1 2 "m2.pdf"]).model_responses.filter
              (fun m => m.task_instance_id == inst.id)).map (fun m => m.pdf_url)).length
           then ∀ x ∈ (("i1.pdf", ([some "m1.pdf", some "m2.pdf", none, none, none] : List (Option String))).2),
              ∃ s, x = some s ∧
                s ∈ ((TaskDb.mk [TaskRow.mk 1 10 "nurse"]
                  [TaskInstanceRow.mk 1 1 1 "i1.pdf" false false 0]
                  [ModelResponseRow.mk 1 1 1 "m1.pdf", ModelResponseRow.mk 2 1 2 "m2.pdf"]).model_responses.filter
                  (fun m => m.task_instance_id == inst.id)).map (fun m => m.pdf_url)
           else ("i1.pdf", ([some "m1.pdf", some "m2.pdf", none, none, none] : List (Option String))).2
             = (((TaskDb.mk [TaskRow.mk 1 10 "nurse"]
                  [TaskInstanceRow.mk 1 1 1 "i1.pdf" false false 0]
                  [ModelResponseRow.mk 1 1 1 "m1.pdf", ModelResponseRow.mk 2 1 2 "m2.pdf"]).model_responses.filter
                  (fun m => m.task_instance_id == inst.id)).map (fun m => m.pdf_url)).map some
               ++ List.replicate (5 - (((TaskDb.mk [TaskRow.mk 1 10 "nurse"]
                  [TaskInstanceRow.mk 1 1 1 "i1.pdf" false false 0]
                  [ModelResponseRow.mk 1 1 1 "m1.pdf", ModelResponseRow.mk 2 1 2 "m2.pdf"]).model_responses.filter
                  (fun m => m.task_instance_id == inst.id)).map (fun m => m.pdf_url)).length) none) :=
  get_next_task_instance_five_models (fun l => l.take 5)
    (fun l hl => ⟨by simp [Nat.min_eq_left hl], fun x hx => List.mem_of_mem_take hx⟩)
    (TaskDb.mk [TaskRow.mk 1 10 "nurse"]
      [TaskInstanceRow.mk 1 1 1 "i1.pdf" false false 0]
      [ModelResponseRow.mk 1 1 1 "m1.pdf", ModelResponseRow.mk 2 1 2 "m2.pdf"])
    10 "nurse" 1 ("i1.pdf", [some "m1.pdf", some "m2.pdf", none, none, none])
    (TaskDb.mk [TaskRow.mk 1 10 "nurse"]
      [TaskInstanceRow.mk 1 1 1 "i1.pdf" true false 1]
      [ModelResponseRow.mk 1 1 1 "m1.pdf", ModelResponseRow.mk 2 1 2 "m2.pdf"])
    (by decide)

end SurveyPipeline
